import Mathlib

/-!
Shallow embedding of `scripts/generate_answers.py`: a batch generator that
loads a CSV of employee records, samples N of them, renders each row into a
prompt, calls a chat-completion HTTP endpoint through a fallback cascade of
candidate models, and appends one JSON line per record to an output file.

Python values, exceptions and HTTP responses are modelled explicitly; code
that can raise is embedded in `Except PyExn`.  An uncaught Python exception
escaping a function is an `Except.error`; an error *reported as data* (the
`(text, error)` pair returned by `call_llm`) stays inside `Except.ok`.
-/

namespace GenAnswers

/-- Python exceptions that the embedded code can raise (uncaught). -/
inductive PyExn where
  | valueError
  | typeError
  | nameError
  | attributeError
deriving DecidableEq, Repr

/-- JSON values, modelling Python objects obtained from `resp.json()`. -/
inductive Json where
  | null
  | bool (b : Bool)
  | num (n : Int)
  | str (s : String)
  | arr (elems : List Json)
  | obj (fields : List (String × Json))

/-- Python's whitespace characters as far as `str.strip()` is concerned
(ASCII subset: space, tab, newline, carriage return, vertical tab, form feed). -/
def pyIsSpace (c : Char) : Bool :=
  c = ' ' || c = '\t' || c = '\n' || c = '\r' || c = '\x0b' || c = '\x0c'

/-- Python `str.strip()`: drop leading and trailing whitespace. -/
def pyStrip (s : String) : String :=
  String.mk (((s.toList.dropWhile pyIsSpace).reverse.dropWhile pyIsSpace).reverse)

/-- Minimal JSON string escaping, as `json.dumps` applies to string values. -/
def jsonEscapeChar (c : Char) : String :=
  if c = '\\' then "\\\\"
  else if c = '"' then "\\\""
  else if c = '\n' then "\\n"
  else if c = '\t' then "\\t"
  else if c = '\r' then "\\r"
  else String.mk [c]

def jsonEscape (s : String) : String :=
  String.join (s.toList.map jsonEscapeChar)

mutual
/-- Python `json.dumps(j, ensure_ascii=False)` (default separators). -/
def jsonDumps : Json → String
  | .null => "null"
  | .bool true => "true"
  | .bool false => "false"
  | .num n => toString n
  | .str s => "\"" ++ jsonEscape s ++ "\""
  | .arr xs => "[" ++ dumpsElems xs ++ "]"
  | .obj fs => "\x7b" ++ dumpsFields fs ++ "\x7d"

def dumpsElems : List Json → String
  | [] => ""
  | [x] => jsonDumps x
  | x :: y :: xs => jsonDumps x ++ ", " ++ dumpsElems (y :: xs)

def dumpsFields : List (String × Json) → String
  | [] => ""
  | [(k, v)] => "\"" ++ jsonEscape k ++ "\": " ++ jsonDumps v
  | (k, v) :: f :: fs =>
      "\"" ++ jsonEscape k ++ "\": " ++ jsonDumps v ++ ", " ++ dumpsFields (f :: fs)
end

/-- Python dict-style access `j[k]` succeeding only on an object with that key. -/
def getKey (j : Json) (k : String) : Option Json :=
  match j with
  | .obj fs => fs.lookup k
  | _ => none

/-- Python list indexing `j[i]` succeeding only on an array long enough. -/
def getIdx (j : Json) (i : Nat) : Option Json :=
  match j with
  | .arr xs => xs.get? i
  | _ => none

/-- The extraction path `j["choices"][0]["message"]["content"]` of `call_llm`;
`none` when some access along the path raises (`KeyError`/`IndexError`/
`TypeError`), which the source catches and answers with the stringify fallback. -/
def extractContent (j : Json) : Option Json :=
  ((((getKey j "choices").bind (getIdx · 0)).bind (getKey · "message")).bind
    (getKey · "content"))

/-- Environment variables `call_llm` and the module header read.  `none`
models an unset variable; a set-but-empty variable is `some ""` (falsy in
Python). -/
structure Env where
  groqApi : Option String
  groqApiKey : Option String
  modelVar : Option String
deriving DecidableEq, Repr

/-- Python `a or b` on optional environment strings: the first truthy
(non-`None`, non-empty) value, else `b`'s value. -/
def orPy (a b : Option String) : Option String :=
  match a with
  | some s => if s = "" then b else some s
  | none => b

/-- `key = os.getenv("GROQ_API") or os.getenv("GROQ_API_KEY")` followed by the
`if not key` test: `none` exactly when the code takes the no-credential exit. -/
def resolveKey (env : Env) : Option String :=
  match orPy env.groqApi env.groqApiKey with
  | some s => if s = "" then none else some s
  | none => none

/-- The fixed priority list of candidate models in `call_llm`. -/
def fixedCandidates : List String :=
  ["groq/compound", "groq/compound-mini", "llama-3.1-8b-instant",
   "llama-3.3-70b-versatile", "openai/gpt-oss-20b"]

/-- `candidates`: the env-configured `MODEL` first when set and non-empty
(Python truthiness of `if env_model:`), then the fixed priority list. -/
def candidates (env : Env) : List String :=
  (match env.modelVar with
   | some m => if m = "" then [] else [m]
   | none => []) ++ fixedCandidates

/-- One HTTP response: status code, `resp.json()` when the body parses as
JSON (`none` models a `resp.json()` that raises), and `resp.text`. -/
structure HttpResponse where
  status : Nat
  json : Option Json
  text : String

/-- Outcome of `requests.post` for one candidate: a response, or a raised
network exception with its message. -/
inductive RequestResult where
  | resp (r : HttpResponse)
  | netErr (msg : String)

/-- The provider's behavior: the response to posting the payload for a given
candidate model and prompt. -/
def Provider : Type := String → String → RequestResult

/-- `contFail`: the request outcomes on which the cascade records the error
and continues to the next candidate (a network exception, or a status that is
neither 200 nor 401/403). -/
def contFail : RequestResult → Bool
  | .netErr _ => true
  | .resp r => r.status ≠ 200 && r.status ≠ 401 && r.status ≠ 403

/-- The error string `call_llm` records for a failed candidate `m`. -/
def failMsg (pr : Provider) (prompt m : String) : String :=
  match pr m prompt with
  | .netErr e => "Network error while trying model " ++ m ++ ": " ++ e
  | .resp r => "Model " ++ m ++ " returned " ++ toString r.status ++ ": " ++ r.text

/-- The 200-branch of `call_llm`.  The `try` covers `resp.json()` and the
nested extraction; the `except` stringifies `j`.  Two slips of the source are
embedded faithfully: if `resp.json()` itself raises, the handler evaluates
`json.dumps(j)` with `j` unbound (`NameError`); and `text.strip()` sits
outside the `try`, so a non-string extracted content raises `AttributeError`. -/
def processSuccess (r : HttpResponse) : Except PyExn (Option String × Option String) :=
  match r.json with
  | none => .error .nameError
  | some j =>
      match extractContent j with
      | some (Json.str s) => .ok (some (pyStrip s), none)
      | some _ => .error .attributeError
      | none => .ok (some (pyStrip (jsonDumps j)), none)

/-- Python `last_err or "No model succeeded"` at the exhausted exit. -/
def lastErrOrDefault : Option String → String
  | some e => if e = "" then "No model succeeded" else e
  | none => "No model succeeded"

/-- The candidate loop of `call_llm`, instrumented with the list of
candidates actually attempted (posted to), in order. -/
def tryModels (pr : Provider) (prompt : String) (lastErr : Option String) :
    List String → List String × Except PyExn (Option String × Option String)
  | [] => ([], .ok (none, some (lastErrOrDefault lastErr)))
  | m :: rest =>
      match pr m prompt with
      | .netErr e =>
          let out := tryModels pr prompt
            (some ("Network error while trying model " ++ m ++ ": " ++ e)) rest
          (m :: out.1, out.2)
      | .resp r =>
          if r.status = 200 then (m :: [], processSuccess r)
          else
            let err := "Model " ++ m ++ " returned " ++ toString r.status ++ ": " ++ r.text
            if r.status = 401 ∨ r.status = 403 then (m :: [], .ok (none, some err))
            else
              let out := tryModels pr prompt (some err) rest
              (m :: out.1, out.2)

/-- `call_llm(prompt)`: the Groq fallback cascade.  The first component is
the ghost trace of candidates attempted; the second is the source's result —
`.ok (text, error)` for a normal return, `.error` for an uncaught exception. -/
def call_llm (prompt : String) (env : Env) (pr : Provider) :
    List String × Except PyExn (Option String × Option String) :=
  match resolveKey env with
  | none => ([], .ok (none, some "No GROQ_API found in env"))
  | some _ => tryModels pr prompt none (candidates env)

/-- A Python value stored in one cell of a sampled row's dict (CSV fields as
pandas delivers them: strings, integers, `NaN` for a missing numeric cell, or
`None`). -/
inductive PyVal where
  | none
  | str (s : String)
  | int (n : Int)
  | nan
deriving DecidableEq, Repr

/-- Python truthiness of a row value (`NaN` is truthy). -/
def pyTruthy : PyVal → Bool
  | .none => false
  | .str s => s ≠ ""
  | .int n => n ≠ 0
  | .nan => true

/-- Python `a or b` on row values. -/
def pyOr (a b : PyVal) : PyVal := if pyTruthy a then a else b

/-- `str(v)` as `str.format` applies it to an interpolated value. -/
def pyValStr : PyVal → String
  | .none => "None"
  | .str s => s
  | .int n => toString n
  | .nan => "nan"

/-- All-digit character list to its numeric value (`none` when empty or a
non-digit appears). -/
def digitsToNat : List Char → Option Nat
  | [] => Option.none
  | cs => cs.foldl (fun acc c =>
      acc.bind fun n => if c.isDigit then some (n * 10 + (c.toNat - '0'.toNat)) else Option.none)
      (some 0)

/-- Python `int(s)` on a string: surrounding whitespace and one sign allowed,
then decimal digits; anything else raises `ValueError`. -/
def parseIntPy (s : String) : Option Int :=
  match (pyStrip s).toList with
  | '-' :: rest => (digitsToNat rest).map (fun n => -(n : Int))
  | '+' :: rest => (digitsToNat rest).map Int.ofNat
  | l => (digitsToNat l).map Int.ofNat

/-- Python `int(v)`: identity on ints, string parsing with `ValueError` on
failure, `ValueError` on `NaN`, `TypeError` on `None`. -/
def pyToInt : PyVal → Except PyExn Int
  | .int n => .ok n
  | .str s => match parseIntPy s with
      | some n => .ok n
      | Option.none => .error .valueError
  | .nan => .error .valueError
  | .none => .error .typeError

/-- A sampled row as the dict `row_series.to_dict()` produces. -/
def Row : Type := List (String × PyVal)

/-- Python `rowd.get(k, default)`. -/
def rowGet (row : Row) (k : String) (default : PyVal) : PyVal :=
  match row.lookup k with
  | some v => v
  | Option.none => default

/-- The module constant `USER_QUESTION`. -/
def USER_QUESTION : String :=
  "Wat moet Volker Nexus Group doen om AI verantwoord en snel te integreren in " ++
  "werkvoorbereiding en uitvoering? Geef (A) één korte principiële aanbeveling, " ++
  "(B) twee concrete acties die deze medewerker kan ondersteunen of voorstellen, " ++
  "en (C) één risico/bezwaar dat deze persoon waarschijnlijk voelt."

/-- `PROMPT_TEMPLATE.format(...)` with every placeholder substituted. -/
def renderTemplate (question functie afdeling team studie_niveau opleidingsrichting
    specialisatie werkervaring_jaren senioriteit ai_affiniteit pct_pc : String) : String :=
  "\nJe bent een collega-adviseur bij Volker Nexus Group (bouw/infra).\n" ++
  "Hieronder staan kenmerken van één medewerker. Schrijf in maximaal ~120-200 woorden " ++
  "een korte, op deze persoon toegespitste reactie op de vraag:\nVraag: " ++ question ++
  "\n\nMedewerker (kort):\n- Functie: " ++ functie ++
  "\n- Afdeling: " ++ afdeling ++
  "\n- Team: " ++ team ++
  "\n- Studie: " ++ studie_niveau ++ " (" ++ opleidingsrichting ++ ")" ++
  "\n- Specialisatie: " ++ specialisatie ++
  "\n- Werkervaring (jaren): " ++ werkervaring_jaren ++
  "\n- Senioriteit: " ++ senioriteit ++
  "\n- AI-affiniteit: " ++ ai_affiniteit ++
  "\n- % werk op computer: " ++ pct_pc ++
  "\n\nAntwoordformaat (verplicht):\n" ++
  "A) Eén korte principiële aanbeveling (1 zin).\n" ++
  "B) Twee concrete acties (elk 1 regel) die deze persoon kan ondersteunen of voorstellen.\n" ++
  "C) Eén risico/bezwaar dat deze persoon waarschijnlijk voelt (1 zin).\n" ++
  "Wees bondig, praktisch, Nederlands, max 200 woorden totaal.\n"

/-- `build_prompt(row)`.  The only fallible piece is
`int(row.get("werkervaring_jaren", 0) or 0)`, which raises `ValueError` on a
non-numeric string or a `NaN` cell (uncaught by the caller). -/
def build_prompt (row : Row) : Except PyExn String := do
  let w ← pyToInt (pyOr (rowGet row "werkervaring_jaren" (.int 0)) (.int 0))
  .ok (renderTemplate USER_QUESTION
    (pyValStr (rowGet row "functie" (.str "")))
    (pyValStr (rowGet row "afdeling" (.str "")))
    (pyValStr (rowGet row "team" (.str "")))
    (pyValStr (rowGet row "studie_niveau" (.str "")))
    (pyValStr (rowGet row "opleidingsrichting" (rowGet row "opleiding" (.str ""))))
    (pyValStr (rowGet row "specialisatie" (.str "")))
    (toString w)
    (pyValStr (rowGet row "senioriteit" (.str "")))
    (pyValStr (rowGet row "ai_affiniteit" (.str "Gemiddeld")))
    (pyValStr (rowGet row "%_werk_op_computer" (rowGet row "pct_pc" (.int 50)))))

/-- The module constants `N` and `SEED`. -/
def N : Nat := 10

def SEED : Nat := 42

/-- One step of a linear congruential generator (glibc constants). -/
def lcgNext (s : Nat) : Nat := (s * 1103515245 + 12345) % 2147483648

/-- Modelled from the spec: the library call `df.sample(n, random_state=seed)`
is not part of this repository; the spec describes it as "a seeded
deterministic pseudo-random selection" of exactly `n` rows.  This model draws
`n` distinct rows, without replacement, driven by a seeded LCG. -/
def sampleGo : Nat → List Row → Nat → List Row
  | 0, _, _ => []
  | Nat.succ k, pool, st =>
      if h : 0 < pool.length then
        let i := st % pool.length
        pool.get ⟨i, Nat.mod_lt _ h⟩ :: sampleGo k (pool.eraseIdx i) (lcgNext st)
      else []

def pandasSample (rows : List Row) (n : Nat) (seed : Nat) : List Row :=
  sampleGo n rows (lcgNext seed)

/-- The sampling step of `main`: all rows (with the shortfall warning, the
`Bool`) when the dataset is smaller than `n`, else `df.sample(n,
random_state=seed).reset_index(drop=True)`. -/
def sampleRecords (rows : List Row) (n seed : Nat) : List Row × Bool :=
  if rows.length < n then (rows, true)
  else (pandasSample rows n seed, false)

/-- One serialized output line, at record granularity: the dict `out` that
`main` builds and `json.dumps`-writes.  `answer = none` models JSON `null`;
`errorField = none` models the `error` key being absent (a success line does
not carry it). -/
structure OutLine where
  idx : Nat
  medewerker_id : PyVal
  functie : PyVal
  answer : Option String
  errorField : Option String
deriving DecidableEq, Repr

/-- The output file: whether the path exists and its lines (one per written
record). -/
structure FileState where
  present : Bool
  lines : List OutLine
deriving DecidableEq, Repr

/-- `open(OUT_PATH, "w")`: creates the file when absent and truncates it. -/
def openW (_f : FileState) : FileState := { present := true, lines := [] }

/-- `out_f.write(json.dumps(out) + "\n")` followed by `out_f.flush()`. -/
def writeLine (f : FileState) (l : OutLine) : FileState :=
  { f with lines := f.lines ++ [l] }

/-- Python truthiness of `err` in `if err:`. -/
def pyTruthyStr : Option String → Bool
  | some e => e ≠ ""
  | none => false

/-- One iteration of the loop in `main` for record `i`: render the prompt
(uncaught exceptions escape), call the LLM, and build the output dict.  On
the success branch the source evaluates `len(text)` for its progress print,
which raises `TypeError` when `text` is `None`. -/
def processRecord (env : Env) (pr : Provider) (i : Nat) (row : Row) :
    Except PyExn OutLine := do
  let prompt ← build_prompt row
  let (text, err) ← (call_llm prompt env pr).2
  if pyTruthyStr err then
    .ok ⟨i, rowGet row "medewerker_id" .none, rowGet row "functie" .none, none, err⟩
  else
    match text with
    | some t => .ok ⟨i, rowGet row "medewerker_id" .none, rowGet row "functie" .none,
        some t, none⟩
    | none => .error .typeError

/-- The record loop of `main`: processes rows in order, appending and
flushing one line per record; an uncaught exception aborts the loop with the
file as written so far.  Returns the error count on normal completion. -/
def runLoop (env : Env) (pr : Provider) :
    List Row → Nat → FileState → Nat → Except PyExn Nat × FileState
  | [], _, f, errors => (.ok errors, f)
  | row :: rest, i, f, errors =>
      match processRecord env pr i row with
      | .error e => (.error e, f)
      | .ok line =>
          runLoop env pr rest (i + 1) (writeLine f line)
            (errors + if line.errorField.isSome then 1 else 0)

/-- How a run ends. -/
inductive RunResult where
  | missingCsv
  | done (errors : Nat)
  | crashed (e : PyExn)
deriving DecidableEq, Repr

/-- `main()`: load the dataset (`csv = none` models a missing dataset path,
where `load_data` raises `FileNotFoundError` before the output directory or
file is touched), sample, open the output file with truncation, and run the
record loop.  Returns the outcome and the final state of the output file. -/
def runMain (env : Env) (pr : Provider) (csv : Option (List Row)) (n seed : Nat)
    (f0 : FileState) : RunResult × FileState :=
  match csv with
  | some rows =>
      let out := runLoop env pr (sampleRecords rows n seed).1 0 (openW f0) 0
      (match out.1 with
       | .ok errors => .done errors
       | .error e => .crashed e,
       out.2)
  | none => (.missingCsv, f0)

/-- The lines the record loop appends for a row list starting at index `i`:
one line per processed record, truncated at the first uncaught exception. -/
def produced (env : Env) (pr : Provider) : Nat → List Row → List OutLine
  | _, [] => []
  | i, row :: rest =>
      match processRecord env pr i row with
      | .ok line => line :: produced env pr (i + 1) rest
      | .error _ => []

/-- The text the 200-branch produces for a body `j` that parsed as JSON: the
nested content when the path yields a string, the stringified body when the
path fails, and no text at all (the `AttributeError` slip) when the path
yields a non-string; always stripped. -/
def successText (j : Json) : Option String :=
  match extractContent j with
  | some (Json.str s) => some (pyStrip s)
  | some _ => none
  | none => some (pyStrip (jsonDumps j))

/-- Concrete fixtures used by witnesses and counterexamples. -/
def goodBody : Json :=
  .obj [("choices", .arr [.obj [("message", .obj [("content", .str " hoi daar ")])]])]

def nullBody : Json :=
  .obj [("choices", .arr [.obj [("message", .obj [("content", .null)])]])]

def envM : Env := ⟨some "sleutel", none, some "X"⟩

/-- Provider where model X answers 500 and every other model answers 200. -/
def prA : Provider := fun m _ =>
  if m = "X" then .resp ⟨500, none, "boom"⟩ else .resp ⟨200, some goodBody, ""⟩

/-- Provider where model X answers 401 and every other model answers 200. -/
def prAuth : Provider := fun m _ =>
  if m = "X" then .resp ⟨401, none, "denied"⟩ else .resp ⟨200, some goodBody, ""⟩

/-- Provider answering 200 with a JSON body whose nested content is null. -/
def prNull : Provider := fun _ _ => .resp ⟨200, some nullBody, ""⟩

/-- Provider answering 200 with a body that is not valid JSON. -/
def prNoJson : Provider := fun _ _ => .resp ⟨200, none, "<html>"⟩

def goodRow : Row := [("medewerker_id", .int 1), ("functie", .str "werkvoorbereider")]

def goodRow2 : Row := [("medewerker_id", .int 2), ("functie", .str "uitvoerder")]

/-- Row with a missing numeric cell: `int(nan)` raises `ValueError`. -/
def badRowNan : Row := [("medewerker_id", .int 7), ("werkervaring_jaren", PyVal.nan)]

/-- Row with a non-numeric experience string: `int("onbekend")` raises. -/
def badRowStr : Row := [("medewerker_id", .int 8), ("werkervaring_jaren", PyVal.str "onbekend")]

/-- Row with a decimal experience string: `int("3.5")` raises. -/
def badRowDec : Row := [("medewerker_id", .int 9), ("werkervaring_jaren", PyVal.str "3.5")]

def emptyFile : FileState := ⟨false, []⟩

def oldLine : OutLine := ⟨0, .none, .none, some "oud", none⟩

/-- The first line the two-good-row witness run writes. -/
def lineW : OutLine := ⟨0, .int 1, .str "werkvoorbereider", some "hoi daar", none⟩

theorem runLoop_lines (env : Env) (pr : Provider) : ∀ (rows : List Row) (i : Nat)
    (f : FileState) (errors : Nat),
    ((runLoop env pr rows i f errors).2).lines = f.lines ++ produced env pr i rows := by
  intro rows
  induction rows with
  | nil => intro i f errors; simp [runLoop, produced]
  | cons row rest ih =>
      intro i f errors
      simp only [runLoop, produced]
      cases hp : processRecord env pr i row with
      | error e => simp
      | ok line => simp [ih, writeLine]

theorem runMain_file (env : Env) (pr : Provider) (rows : List Row) (n seed : Nat)
    (f0 : FileState) :
    (runMain env pr (some rows) n seed f0).2 =
      (runLoop env pr (sampleRecords rows n seed).1 0 (openW f0) 0).2 := rfl

/-- The record index `i` only lands in the produced line's `idx` field. -/
theorem processRecord_shift (env : Env) (pr : Provider) (i : Nat) (row : Row) :
    processRecord env pr i row =
      Except.map (fun l => { l with idx := i }) (processRecord env pr 0 row) := by
  cases hb : build_prompt row with
  | error e => simp [processRecord, hb, Except.map, Bind.bind, Except.bind]
  | ok prompt =>
      cases hc : (call_llm prompt env pr).2 with
      | error e => simp [processRecord, hb, hc, Except.map, Bind.bind, Except.bind]
      | ok te =>
          obtain ⟨text, err⟩ := te
          by_cases ht : pyTruthyStr err = true
          · simp [processRecord, hb, hc, ht, Except.map, Bind.bind, Except.bind]
          · cases text <;>
              simp [processRecord, hb, hc, ht, Except.map, Bind.bind, Except.bind]

theorem processRecord_ok_idx (env : Env) (pr : Provider) (i : Nat) (row : Row)
    (line : OutLine) (h : processRecord env pr i row = .ok line) : line.idx = i := by
  rw [processRecord_shift] at h
  cases h0 : processRecord env pr 0 row with
  | error e => rw [h0] at h; exact absurd h (by simp [Except.map])
  | ok l0 =>
      rw [h0] at h
      simp only [Except.map, Except.ok.injEq] at h
      rw [← h]

theorem processRecord_ok_of_ok_zero (env : Env) (pr : Provider) (i : Nat) (row : Row)
    (h : (processRecord env pr 0 row).isOk = true) :
    ∃ line, processRecord env pr i row = .ok line := by
  cases h0 : processRecord env pr 0 row with
  | error e => rw [h0] at h; simp [Except.isOk, Except.toBool] at h
  | ok l0 => exact ⟨{ l0 with idx := i }, by rw [processRecord_shift, h0]; rfl⟩

theorem produced_length (env : Env) (pr : Provider) : ∀ (rows : List Row) (i : Nat),
    (∀ r ∈ rows, (processRecord env pr 0 r).isOk = true) →
    (produced env pr i rows).length = rows.length := by
  intro rows
  induction rows with
  | nil => intro i _; rfl
  | cons row rest ih =>
      intro i h
      obtain ⟨line, hline⟩ := processRecord_ok_of_ok_zero env pr i row
        (h row (List.mem_cons_self row rest))
      simp only [produced, hline, List.length_cons]
      rw [ih (i + 1) (fun r hr => h r (List.mem_cons_of_mem _ hr))]

theorem produced_get (env : Env) (pr : Provider) : ∀ (rows : List Row) (i : Nat),
    (∀ r ∈ rows, (processRecord env pr 0 r).isOk = true) →
    ∀ (k : Nat) (row' : Row), rows.get? k = some row' →
      ∃ line, (produced env pr i rows).get? k = some line ∧
        processRecord env pr (i + k) row' = .ok line := by
  intro rows
  induction rows with
  | nil => intro i _ k row' hrow; exact absurd hrow (by simp)
  | cons row rest ih =>
      intro i h k row' hrow
      obtain ⟨line, hline⟩ := processRecord_ok_of_ok_zero env pr i row
        (h row (List.mem_cons_self row rest))
      cases k with
      | zero =>
          simp only [List.get?_cons_zero, Option.some.injEq] at hrow
          refine ⟨line, ?_, ?_⟩
          · simp only [produced, hline, List.get?_cons_zero]
          · rw [hrow] at hline; simpa using hline
      | succ k' =>
          simp only [List.get?_cons_succ] at hrow
          obtain ⟨line', h1, h2⟩ := ih (i + 1)
            (fun r hr => h r (List.mem_cons_of_mem _ hr)) k' row' hrow
          refine ⟨line', ?_, ?_⟩
          · simp only [produced, hline, List.get?_cons_succ]; exact h1
          · rw [show i + (k' + 1) = i + 1 + k' by omega]; exact h2

theorem runLoop_isOk (env : Env) (pr : Provider) : ∀ (rows : List Row) (i : Nat)
    (f : FileState) (errors : Nat),
    (∀ r ∈ rows, (processRecord env pr 0 r).isOk = true) →
    ∃ e, (runLoop env pr rows i f errors).1 = .ok e := by
  intro rows
  induction rows with
  | nil => intro i f errors _; exact ⟨errors, rfl⟩
  | cons row rest ih =>
      intro i f errors h
      obtain ⟨line, hline⟩ := processRecord_ok_of_ok_zero env pr i row
        (h row (List.mem_cons_self row rest))
      simp only [runLoop, hline]
      exact ih (i + 1) _ _ (fun r hr => h r (List.mem_cons_of_mem _ hr))

theorem produced_mem (env : Env) (pr : Provider) : ∀ (rows : List Row) (i : Nat)
    (line : OutLine), line ∈ produced env pr i rows →
    ∃ j row, processRecord env pr j row = .ok line := by
  intro rows
  induction rows with
  | nil => intro i line h; exact absurd h (by simp [produced])
  | cons row rest ih =>
      intro i line h
      cases hp : processRecord env pr i row with
      | error e => rw [produced, hp] at h; exact absurd h (by simp)
      | ok l =>
          rw [produced, hp] at h
          rcases List.mem_cons.mp h with h1 | h2
          · exact ⟨i, row, by rw [hp, h1]⟩
          · exact ih (i + 1) line h2

theorem processSuccess_eq_successText (r : HttpResponse) (j : Json)
    (hj : r.json = some j) :
    processSuccess r = match successText j with
      | some t => .ok (some t, none)
      | none => .error .attributeError := by
  simp only [processSuccess, successText, hj]
  rcases hx : extractContent j with _ | v
  · simp [hx]
  · cases v <;> simp [hx]

/-- A candidate whose request outcome is a continue-failure is attempted,
its error recorded, and the cascade moves on. -/
theorem tryModels_contFail (pr : Provider) (prompt : String) (lastErr : Option String)
    (m : String) (rest : List String) (h : contFail (pr m prompt) = true) :
    tryModels pr prompt lastErr (m :: rest) =
      (m :: (tryModels pr prompt (some (failMsg pr prompt m)) rest).1,
        (tryModels pr prompt (some (failMsg pr prompt m)) rest).2) := by
  cases hm : pr m prompt with
  | netErr e => simp [tryModels, hm, failMsg]
  | resp r =>
      rw [hm] at h
      simp only [contFail] at h
      simp only [Bool.and_eq_true, decide_eq_true_eq, ne_eq] at h
      simp [tryModels, hm, failMsg, h.1.1, h.1.2, h.2]

/-- The first candidate answering 200 after a prefix of continue-failures
ends the cascade with `processSuccess` of its response. -/
theorem tryModels_first200 (pr : Provider) (prompt y : String) (r : HttpResponse)
    (hy : pr y prompt = .resp r) (h200 : r.status = 200) :
    ∀ (pre post : List String) (lastErr : Option String),
      (∀ m ∈ pre, contFail (pr m prompt) = true) →
      tryModels pr prompt lastErr (pre ++ y :: post) = (pre ++ [y], processSuccess r) := by
  intro pre
  induction pre with
  | nil =>
      intro post lastErr _
      simp [tryModels, hy, h200]
  | cons m pre' ih =>
      intro post lastErr h
      rw [List.cons_append,
        tryModels_contFail pr prompt lastErr m (pre' ++ y :: post)
          (h m (List.mem_cons_self m pre')),
        ih post _ (fun c hc => h c (List.mem_cons_of_mem _ hc))]
      simp

/-- A 401/403 candidate after a prefix of continue-failures stops the cascade
with its own error, attempting nothing further. -/
theorem tryModels_auth (pr : Provider) (prompt x : String) (r : HttpResponse)
    (hx : pr x prompt = .resp r) (hs : r.status = 401 ∨ r.status = 403) :
    ∀ (pre post : List String) (lastErr : Option String),
      (∀ m ∈ pre, contFail (pr m prompt) = true) →
      tryModels pr prompt lastErr (pre ++ x :: post) =
        (pre ++ [x], .ok (none, some ("Model " ++ x ++ " returned " ++
          toString r.status ++ ": " ++ r.text))) := by
  intro pre
  induction pre with
  | nil =>
      intro post lastErr _
      have hne : ¬ r.status = 200 := by omega
      simp [tryModels, hx, hne, hs]
  | cons m pre' ih =>
      intro post lastErr h
      rw [List.cons_append,
        tryModels_contFail pr prompt lastErr m (pre' ++ x :: post)
          (h m (List.mem_cons_self m pre')),
        ih post _ (fun c hc => h c (List.mem_cons_of_mem _ hc))]
      simp

theorem failMsg_ne_empty (pr : Provider) (prompt m : String) :
    failMsg pr prompt m ≠ "" := by
  unfold failMsg
  cases pr m prompt with
  | netErr e =>
      intro h
      have := congrArg String.length h
      simp only [String.length_append] at this
      have h33 : ("Network error while trying model " : String).length = 33 := rfl
      have h0 : ("" : String).length = 0 := rfl
      omega
  | resp r =>
      intro h
      have := congrArg String.length h
      simp only [String.length_append] at this
      have h6 : ("Model " : String).length = 6 := rfl
      have h0 : ("" : String).length = 0 := rfl
      omega

/-- When every candidate is a continue-failure the cascade exhausts and
reports the last candidate's recorded error. -/
theorem tryModels_allFail (pr : Provider) (prompt : String) :
    ∀ (cs : List String) (lastErr : Option String), cs ≠ [] →
      (∀ m ∈ cs, contFail (pr m prompt) = true) →
      ∃ last, cs.getLast? = some last ∧
        tryModels pr prompt lastErr cs =
          (cs, .ok (none, some (failMsg pr prompt last))) := by
  intro cs
  induction cs with
  | nil => intro lastErr h; exact absurd rfl h
  | cons m rest ih =>
      intro lastErr _ h
      cases rest with
      | nil =>
          refine ⟨m, rfl, ?_⟩
          rw [tryModels_contFail pr prompt lastErr m []
            (h m (List.mem_cons_self m []))]
          simp [tryModels, lastErrOrDefault, failMsg_ne_empty pr prompt m]
      | cons m2 rest2 =>
          obtain ⟨last, hlast, heq⟩ := ih (some (failMsg pr prompt m))
            (by simp) (fun c hc => h c (List.mem_cons_of_mem _ hc))
          refine ⟨last, ?_, ?_⟩
          · rw [List.getLast?_cons_cons]; exact hlast
          · rw [tryModels_contFail pr prompt lastErr m (m2 :: rest2)
              (h m (List.mem_cons_self m _)), heq]

theorem candidates_ne_nil (env : Env) : candidates env ≠ [] := by
  unfold candidates fixedCandidates
  cases env.modelVar with
  | none => simp
  | some m => by_cases h : m = "" <;> simp [h]

/-- Claim C2: in fallback-cascade mode `call_llm` attempts the candidates
strictly in order; it returns the stripped extracted text (with the
JSON-stringify fallback) of the first candidate answering 200, skipping
candidates that answer non-200/non-auth statuses or raise network errors;
and when every candidate fails that way it returns the last recorded error. -/
theorem claim_c2_cascade_order :
    (∀ (env : Env) (pr : Provider) (prompt k y : String) (pre post : List String)
        (r : HttpResponse) (j : Json) (t : String),
      resolveKey env = some k →
      candidates env = pre ++ y :: post →
      (∀ m ∈ pre, contFail (pr m prompt) = true) →
      pr y prompt = .resp r → r.status = 200 → r.json = some j →
      successText j = some t →
      call_llm prompt env pr = (pre ++ [y], .ok (some t, none))) ∧
    (∀ (env : Env) (pr : Provider) (prompt k : String),
      resolveKey env = some k →
      (∀ m ∈ candidates env, contFail (pr m prompt) = true) →
      ∃ last, (candidates env).getLast? = some last ∧
        call_llm prompt env pr =
          (candidates env, .ok (none, some (failMsg pr prompt last)))) := by
  constructor
  · intro env pr prompt k y pre post r j t hk hc hpre hy h200 hj ht
    simp only [call_llm, hk]
    rw [hc, tryModels_first200 pr prompt y r hy h200 pre post none hpre,
      processSuccess_eq_successText r j hj, ht]
  · intro env pr prompt k hk hall
    obtain ⟨last, hlast, heq⟩ :=
      tryModels_allFail pr prompt (candidates env) none (candidates_ne_nil env) hall
    refine ⟨last, hlast, ?_⟩
    simp only [call_llm, hk]
    exact heq

/-- Claim C2 witness: candidates [X, groq/compound, ...] where X answers 500
and groq/compound answers 200 with content " hoi daar ": X is attempted
first and discarded, and the stripped text of groq/compound is the result. -/
theorem claim_c2_witness :
    call_llm "vraag" envM prA = (["X", "groq/compound"], .ok (some "hoi daar", none)) := by
  have h := claim_c2_cascade_order.1 envM prA "vraag" "sleutel" "groq/compound"
    ["X"] ["groq/compound-mini", "llama-3.1-8b-instant", "llama-3.3-70b-versatile",
      "openai/gpt-oss-20b"] ⟨200, some goodBody, ""⟩ goodBody "hoi daar"
    rfl rfl (by decide) rfl rfl rfl rfl
  exact h

/-- Claim C3: a candidate answering 401 or 403 stops the cascade immediately
with that candidate's error; no further candidate is attempted (the attempt
trace ends at it). -/
theorem claim_c3_auth_stops (env : Env) (pr : Provider) (prompt k x : String)
    (pre post : List String) (r : HttpResponse)
    (hk : resolveKey env = some k) (hc : candidates env = pre ++ x :: post)
    (hpre : ∀ m ∈ pre, contFail (pr m prompt) = true)
    (hx : pr x prompt = .resp r) (hs : r.status = 401 ∨ r.status = 403) :
    call_llm prompt env pr = (pre ++ [x],
      .ok (none, some ("Model " ++ x ++ " returned " ++ toString r.status ++
        ": " ++ r.text))) := by
  simp only [call_llm, hk]
  rw [hc, tryModels_auth pr prompt x r hx hs pre post none hpre]

/-- Claim C3 witness: candidates [X, ...] where X answers 401: the cascade
stops at X with its error and the fixed candidates after it are never
attempted. -/
theorem claim_c3_witness :
    call_llm "vraag" envM prAuth = (["X"], .ok (none, some "Model X returned 401: denied")) := by
  have h := claim_c3_auth_stops envM prAuth "vraag" "sleutel" "X" [] fixedCandidates
    ⟨401, none, "denied"⟩ rfl rfl (by simp) rfl (Or.inl rfl)
  exact h

/-- Claim C9: with no credential in the environment, `call_llm` returns the
no-credential error immediately; the attempt trace is empty, so no request
is constructed or sent and no candidate is attempted. -/
theorem claim_c9_no_credential (env : Env) (pr : Provider) (prompt : String)
    (h : resolveKey env = none) :
    call_llm prompt env pr = ([], .ok (none, some "No GROQ_API found in env")) := by
  simp only [call_llm, h]

/-- Claim C9 witness: `GROQ_API` unset and `GROQ_API_KEY` set but empty. -/
theorem claim_c9_witness :
    call_llm "vraag" ⟨none, some "", none⟩ prA =
      ([], .ok (none, some "No GROQ_API found in env")) :=
  claim_c9_no_credential ⟨none, some "", none⟩ prA "vraag" rfl

/-- Claim C10: on a successful call whose 200 response carries a string
content at `choices[0].message.content`, the answer `call_llm` returns is the
whitespace-stripped content, not the raw content. -/
theorem claim_c10_answer_stripped (env : Env) (pr : Provider) (prompt k y : String)
    (pre post : List String) (r : HttpResponse) (j : Json) (s : String)
    (hk : resolveKey env = some k) (hc : candidates env = pre ++ y :: post)
    (hpre : ∀ m ∈ pre, contFail (pr m prompt) = true)
    (hy : pr y prompt = .resp r) (h200 : r.status = 200) (hj : r.json = some j)
    (hx : extractContent j = some (Json.str s)) :
    (call_llm prompt env pr).2 = .ok (some (pyStrip s), none) := by
  simp only [call_llm, hk]
  rw [hc, tryModels_first200 pr prompt y r hy h200 pre post none hpre]
  simp only [processSuccess_eq_successText r j hj, successText, hx]

/-- Claim C10 witness: content " hoi daar " is answered as "hoi daar" —
stripped, and different from the raw content. -/
theorem claim_c10_witness :
    (call_llm "vraag" envM prA).2 = .ok (some (pyStrip " hoi daar "), none) ∧
    pyStrip " hoi daar " = "hoi daar" ∧ " hoi daar " ≠ "hoi daar" := by
  refine ⟨claim_c10_answer_stripped envM prA "vraag" "sleutel" "groq/compound"
    ["X"] ["groq/compound-mini", "llama-3.1-8b-instant", "llama-3.3-70b-versatile",
      "openai/gpt-oss-20b"] ⟨200, some goodBody, ""⟩ goodBody " hoi daar "
    rfl rfl (by decide) rfl rfl rfl rfl, by decide, by decide⟩

theorem runMain_res_ok (env : Env) (pr : Provider) (rows : List Row) (n seed : Nat)
    (f0 : FileState) (e : Nat)
    (he : (runLoop env pr (sampleRecords rows n seed).1 0 (openW f0) 0).1 = .ok e) :
    (runMain env pr (some rows) n seed f0).1 = .done e := by
  simp only [runMain]
  rw [he]

theorem processRecord_xor (env : Env) (pr : Provider) (i : Nat) (row : Row)
    (line : OutLine) (h : processRecord env pr i row = .ok line) :
    (line.answer.isSome = true ∧ line.errorField = none) ∨
    (line.answer = none ∧ line.errorField.isSome = true) := by
  unfold processRecord at h
  cases hb : build_prompt row with
  | error e => rw [hb] at h; exact absurd h (by simp [Bind.bind, Except.bind])
  | ok prompt =>
      rw [hb] at h
      simp only [Bind.bind, Except.bind] at h
      cases hc : (call_llm prompt env pr).2 with
      | error e => rw [hc] at h; exact absurd h (by simp)
      | ok te =>
          rw [hc] at h
          obtain ⟨text, err⟩ := te
          dsimp only [] at h
          by_cases ht : pyTruthyStr err = true
          · rw [if_pos ht] at h
            cases err with
            | none => exact absurd ht (by simp [pyTruthyStr])
            | some e =>
                right
                injection h with h2
                exact ⟨by rw [← h2], by rw [← h2]; rfl⟩
          · rw [if_neg ht] at h
            cases text with
            | none => exact absurd h (by simp)
            | some t =>
                left
                injection h with h2
                exact ⟨by rw [← h2]; rfl, by rw [← h2]⟩

theorem sampleGo_length : ∀ (n : Nat) (pool : List Row) (st : Nat),
    (sampleGo n pool st).length = min n pool.length := by
  intro n
  induction n with
  | zero => intro pool st; simp [sampleGo]
  | succ k ih =>
      intro pool st
      by_cases h : 0 < pool.length
      · rw [sampleGo, dif_pos h, List.length_cons, ih, List.length_eraseIdx]
        have hm : st % pool.length < pool.length := Nat.mod_lt _ h
        rw [if_pos hm]
        omega
      · rw [sampleGo, dif_neg h]
        simp only [List.length_nil]
        omega

theorem sampleGo_mem : ∀ (n : Nat) (pool : List Row) (st : Nat) (r : Row),
    r ∈ sampleGo n pool st → r ∈ pool := by
  intro n
  induction n with
  | zero => intro pool st r h; exact absurd h (by simp [sampleGo])
  | succ k ih =>
      intro pool st r h
      by_cases hp : 0 < pool.length
      · rw [sampleGo, dif_pos hp] at h
        rcases List.mem_cons.mp h with h1 | h2
        · rw [h1]; exact List.get_mem pool _ _
        · exact List.mem_of_mem_eraseIdx (ih _ _ _ h2)
      · rw [sampleGo, dif_neg hp] at h
        exact absurd h (by simp)

/-- Claim C1 (amended): for a run that gets past loading the dataset and in
which every sampled record is processed without an uncaught Python
exception, the run completes and the output stream holds exactly one line
per sampled record, in sampling order: line `k` is the processing result of
sampled record `k` and carries `idx = k`; a per-record completion failure is
reported as an error value and only degrades that record's line.  (A failure
while rendering the prompt is an uncaught exception and aborts the run — see
the counterexample.) -/
theorem claim_c1_one_line_per_record (env : Env) (pr : Provider) (rows : List Row)
    (n seed : Nat) (f0 : FileState)
    (h : ∀ r ∈ (sampleRecords rows n seed).1, (processRecord env pr 0 r).isOk = true) :
    (∃ errors, (runMain env pr (some rows) n seed f0).1 = .done errors) ∧
    ((runMain env pr (some rows) n seed f0).2).lines.length =
      (sampleRecords rows n seed).1.length ∧
    ∀ (k : Nat) (row' : Row), (sampleRecords rows n seed).1.get? k = some row' →
      ∃ line, ((runMain env pr (some rows) n seed f0).2).lines.get? k = some line ∧
        processRecord env pr k row' = .ok line ∧ line.idx = k := by
  have hfile : (runMain env pr (some rows) n seed f0).2 =
      (runLoop env pr (sampleRecords rows n seed).1 0 (openW f0) 0).2 := rfl
  refine ⟨?_, ?_, ?_⟩
  · obtain ⟨e, he⟩ := runLoop_isOk env pr (sampleRecords rows n seed).1 0 (openW f0) 0 h
    exact ⟨e, runMain_res_ok env pr rows n seed f0 e he⟩
  · rw [hfile, runLoop_lines]
    simp only [openW, List.nil_append]
    exact produced_length env pr _ 0 h
  · intro k row' hrow
    obtain ⟨line, h1, h2⟩ := produced_get env pr (sampleRecords rows n seed).1 0 h k row' hrow
    refine ⟨line, ?_, ?_, ?_⟩
    · rw [hfile, runLoop_lines]
      simpa only [openW, List.nil_append] using h1
    · simpa using h2
    · have := processRecord_ok_idx env pr (0 + k) row' line h2
      omega

/-- Claim C1 witness: a two-record run in which every record succeeds
produces exactly two lines. -/
theorem claim_c1_witness :
    (∃ errors, (runMain envM prA (some [goodRow, goodRow2]) 10 42 emptyFile).1 =
      RunResult.done errors) ∧
    ((runMain envM prA (some [goodRow, goodRow2]) 10 42 emptyFile).2).lines.length = 2 := by
  have h := claim_c1_one_line_per_record envM prA [goodRow, goodRow2] 10 42 emptyFile
    (by decide)
  exact ⟨h.1, h.2.1.trans (by decide)⟩

/-- Claim C1 counterexample: a one-record run whose prompt rendering raises
(`int` of a NaN experience cell) aborts with an uncaught exception and
writes zero lines for one sampled record — no error line is produced. -/
theorem claim_c1_cex :
    (runMain envM prA (some [badRowNan]) 10 42 emptyFile).1 =
      RunResult.crashed PyExn.valueError ∧
    ((runMain envM prA (some [badRowNan]) 10 42 emptyFile).2).lines.length = 0 ∧
    (sampleRecords [badRowNan] 10 42).1.length = 1 := by decide

/-- Claim C4: every line the run loop writes carries exactly one of a
non-null answer and a present error: a success line has an answer and no
error field, a failure line has an error string and a null answer. -/
theorem claim_c4_answer_xor_error (env : Env) (pr : Provider) (rows : List Row)
    (n seed : Nat) (f0 : FileState) (line : OutLine)
    (hmem : line ∈ ((runMain env pr (some rows) n seed f0).2).lines) :
    (line.answer.isSome = true ∧ line.errorField = none) ∨
    (line.answer = none ∧ line.errorField.isSome = true) := by
  have hfile : (runMain env pr (some rows) n seed f0).2 =
      (runLoop env pr (sampleRecords rows n seed).1 0 (openW f0) 0).2 := rfl
  rw [hfile, runLoop_lines] at hmem
  simp only [openW, List.nil_append] at hmem
  obtain ⟨j, row, hp⟩ := produced_mem env pr _ 0 line hmem
  exact processRecord_xor env pr j row line hp

/-- Claim C4 witness: the first line of the two-good-row run carries an
answer and no error field. -/
theorem claim_c4_witness :
    (lineW.answer.isSome = true ∧ lineW.errorField = none) ∨
    (lineW.answer = none ∧ lineW.errorField.isSome = true) :=
  claim_c4_answer_xor_error envM prA [goodRow, goodRow2] 10 42 emptyFile lineW (by decide)

/-- Claim C5 (refuted by the code): `call_llm` can raise past its own
boundary.  A 200 response whose extracted `content` is JSON null reaches
`text.strip()` outside the `try` and raises `AttributeError`; a 200 response
whose body is not valid JSON makes the `except` handler evaluate
`json.dumps(j)` with `j` unbound and raises `NameError`. -/
theorem claim_c5_uncaught_exn :
    (call_llm "vraag" envM prNull).2 = .error PyExn.attributeError ∧
    (call_llm "vraag" envM prNoJson).2 = .error PyExn.nameError := ⟨rfl, rfl⟩

/-- Claim C6 (amended): the output file is opened exactly once per run, in
truncating write mode — pre-existing content is discarded at open; after the
open the run only appends: the loop extends its input file's lines and never
removes or overwrites a line it wrote, and the run's final file is exactly
the truncated file extended by the produced lines, one appended and flushed
per processed record in order. -/
theorem claim_c6_truncate_append (env : Env) (pr : Provider) (rows : List Row)
    (i : Nat) (f : FileState) (errors : Nat) (n seed : Nat) (f0 : FileState) :
    (openW f0).lines = [] ∧
    ((runLoop env pr rows i f errors).2).lines = f.lines ++ produced env pr i rows ∧
    ((runMain env pr (some rows) n seed f0).2).lines =
      produced env pr 0 (sampleRecords rows n seed).1 := by
  refine ⟨rfl, runLoop_lines env pr rows i f errors, ?_⟩
  have hfile : (runMain env pr (some rows) n seed f0).2 =
      (runLoop env pr (sampleRecords rows n seed).1 0 (openW f0) 0).2 := rfl
  rw [hfile, runLoop_lines]
  rfl

/-- Claim C6 counterexample: a run over an output file that already holds a
line removes that content — `open(OUT_PATH, "w")` truncates, so content
present in the file before the run's writes is not preserved. -/
theorem claim_c6_cex :
    ((runMain envM prA (some []) 10 42 ⟨true, [oldLine]⟩).2).lines = [] ∧
    (FileState.mk true [oldLine]).lines ≠ [] := by decide

/-- Claim C7 (amended): a missing dataset aborts the run immediately with
the dataset-not-found outcome before the output file is created or any line
is written — the prior file state is returned untouched.  (It is not the
only error that aborts the whole run: an uncaught per-record exception also
aborts, see the counterexample.) -/
theorem claim_c7_missing_dataset (env : Env) (pr : Provider) (n seed : Nat)
    (f0 : FileState) :
    runMain env pr none n seed f0 = (RunResult.missingCsv, f0) := rfl

/-- Claim C7 counterexample: a run whose dataset loads fine still aborts —
the second record's prompt rendering raises `ValueError` — so the
missing-dataset condition is not the only error that aborts the whole run. -/
theorem claim_c7_cex :
    (runMain envM prA (some [goodRow, badRowStr]) 10 42 emptyFile).1 =
      RunResult.crashed PyExn.valueError ∧
    RunResult.crashed PyExn.valueError ≠ RunResult.missingCsv := by decide

/-- Claim C8 (amended): with fewer rows than `n` the sampler uses every row
and flags the shortfall; with enough rows it draws exactly `n` rows, all
from the dataset, by the seeded deterministic selection; the selection is a
function of the rows, `n` and the seed alone, so equal inputs give the
identical subset; and when every sampled record processes without an
uncaught exception, exactly one output line per sampled row is produced. -/
theorem claim_c8_sampling (rows : List Row) (n seed : Nat) :
    (rows.length < n → sampleRecords rows n seed = (rows, true)) ∧
    (n ≤ rows.length → (sampleRecords rows n seed).1.length = n ∧
      ∀ r ∈ (sampleRecords rows n seed).1, r ∈ rows) ∧
    (∀ (rows2 : List Row) (n2 seed2 : Nat), rows2 = rows → n2 = n → seed2 = seed →
      sampleRecords rows2 n2 seed2 = sampleRecords rows n seed) ∧
    (∀ (env : Env) (pr : Provider) (f0 : FileState),
      (∀ r ∈ (sampleRecords rows n seed).1, (processRecord env pr 0 r).isOk = true) →
      ((runMain env pr (some rows) n seed f0).2).lines.length =
        (sampleRecords rows n seed).1.length) := by
  refine ⟨?_, ?_, ?_, ?_⟩
  · intro h; rw [sampleRecords, if_pos h]
  · intro h
    have hnot : ¬ rows.length < n := by omega
    rw [sampleRecords, if_neg hnot]
    constructor
    · rw [pandasSample, sampleGo_length]; omega
    · intro r hr
      exact sampleGo_mem n rows (lcgNext seed) r hr
  · intro rows2 n2 seed2 h1 h2 h3; rw [h1, h2, h3]
  · intro env pr f0 h
    have hfile : (runMain env pr (some rows) n seed f0).2 =
        (runLoop env pr (sampleRecords rows n seed).1 0 (openW f0) 0).2 := rfl
    rw [hfile, runLoop_lines]
    simp only [openW, List.nil_append]
    exact produced_length env pr _ 0 h

/-- Claim C8 witness: a 3-row dataset with target 10 uses all 3 rows with the
shortfall warning, and a completing 2-record run writes exactly 2 lines. -/
theorem claim_c8_witness :
    sampleRecords [goodRow, badRowNan, goodRow2] 10 42 =
      ([goodRow, badRowNan, goodRow2], true) ∧
    ((runMain envM prA (some [goodRow, goodRow2]) 10 42 emptyFile).2).lines.length = 2 := by
  refine ⟨(claim_c8_sampling [goodRow, badRowNan, goodRow2] 10 42).1 (by decide), ?_⟩
  have h := (claim_c8_sampling [goodRow, goodRow2] 10 42).2.2.2 envM prA emptyFile
    (by decide)
  exact h.trans (by decide)

/-- Claim C8 counterexample: a 3-row dataset (fewer than the target 10) whose
second row crashes prompt rendering produces 1 output line, not 3 — the
claimed unconditional line count fails on aborting runs. -/
theorem claim_c8_cex :
    (sampleRecords [goodRow, badRowDec, goodRow2] 10 42).1.length = 3 ∧
    ((runMain envM prA (some [goodRow, badRowDec, goodRow2]) 10 42 emptyFile).2).lines.length
      = 1 ∧
    (1 : Nat) ≠ 3 := by decide

end GenAnswers
